import Mathlib

/-!
# Verification of the Terabox downloader bot core

Shallow embedding of the repository's Python sources:

* `src/bot/database.py`   — persistent store (JSON file, in-memory dict, asyncio lock)
* `src/bot/decorators.py` — admission chain (admin / fsub / token / spam gates)
* `src/bot/utils/terabox.py` — multi-strategy link resolver
* `src/message.py`        — transfer pipeline (download, upload, forward, cleanup)

Times are modelled as `Int` (UTC timestamps in seconds); Python exceptions
become an explicit `PyExc` value threaded through `Except`; a Python module's
namespace is modelled as the list of names its import statements bind, so a
reference to an unbound name evaluates to a `NameError` exactly as in CPython.
-/

namespace Terabot

/-- Python exception kinds that arise in the embedded code paths. -/
inductive PyExc
  | nameError
  | typeError
  | valueError
  | floodWait (w : Int)
  | rpcError
  | requestError
  | httpStatusError (code : Nat)
  | jsonDecodeError
  | generic
deriving DecidableEq, Repr

/-! ## Persistent store (`src/bot/database.py`)

The JSON database has three collections: `users` (a list), `tokens`
(`str(user_id) → {"token": str, "expires": iso-string}`) and `spam_tracker`
(`str(user_id) → iso-string`).  `get_user_token_data` overwrites the stored
`'expires'` entry with a `datetime` *object* (line 80 mutates the aliased
dict), so a stored expiry value is either an ISO string or a datetime. -/

/-- A value stored in an `expires`/timestamp slot of the JSON database.
`iso t` is the ISO-8601 string produced by `datetime.isoformat()` for time
`t`; `dt t` is a live `datetime` object (only ever present after
`get_user_token_data`'s in-place write); `malformed` is an unparsable
string. -/
inductive ExpVal
  | iso (t : Int)
  | dt (t : Int)
  | malformed
deriving DecidableEq, Repr

/-- `datetime.fromisoformat` applied to a stored value: parses an ISO string,
raises `TypeError` on a non-string argument (a `datetime`), `ValueError` on a
malformed string. -/
def fromisoformat : ExpVal → Except PyExc Int
  | .iso t => .ok t
  | .dt _ => .error .typeError
  | .malformed => .error .valueError

/-- `json.dump` serializes strings but raises `TypeError` on a `datetime`
object. -/
def ExpVal.serializable : ExpVal → Bool
  | .iso _ => true
  | .dt _ => false
  | .malformed => true

/-- One entry of the `tokens` collection: `{"token": ..., "expires": ...}`. -/
structure TokenEntry where
  token : String
  expires : ExpVal
deriving DecidableEq, Repr

/-- Association-list get, modelling Python `dict.get`. -/
def alGet {α : Type} : List (Int × α) → Int → Option α
  | [], _ => none
  | (k, v) :: rest, key => if k = key then some v else alGet rest key

/-- Association-list put, modelling Python `dict[key] = value`. -/
def alPut {α : Type} : List (Int × α) → Int → α → List (Int × α)
  | [], key, v => [(key, v)]
  | (k, w) :: rest, key, v =>
      if k = key then (k, v) :: rest else (k, w) :: alPut rest key v

/-- The in-memory `_database` dict of `database.py`. -/
structure Database where
  users : List Int
  tokens : List (Int × TokenEntry)
  spamTracker : List (Int × ExpVal)
deriving DecidableEq, Repr

/-- The empty database created by `load_db` when no file exists. -/
def Database.empty : Database := ⟨[], [], []⟩

/-- Whether `json.dump(_database, f)` succeeds: every stored timestamp slot
must be JSON-serializable (a string), not a `datetime` object. -/
def Database.serializable (db : Database) : Bool :=
  db.tokens.all (fun p => p.2.expires.serializable) &&
  db.spamTracker.all (fun p => p.2.serializable)

/-- Result of `save_db` (database.py 42-50): the dump either writes the
document or raises inside the `try`, which is caught and logged — the save
silently fails and nothing is raised to the caller. -/
inductive SaveResult
  | saved
  | failed
deriving DecidableEq, Repr

/-- `save_db` (database.py 42-50): succeeds iff the in-memory state is
JSON-serializable; a `TypeError` from `json.dump` is absorbed. -/
def save_db (db : Database) : SaveResult :=
  if db.serializable then .saved else .failed

/-- `add_user` (database.py 52-59): appends the id if absent and reports
whether it was newly added. -/
def add_user (db : Database) (uid : Int) : Bool × Database :=
  if uid ∈ db.users then (false, db)
  else (true, { db with users := db.users ++ [uid] })

/-- `get_all_users` (database.py 61-63). -/
def get_all_users (db : Database) : List Int := db.users

/-- `store_token` (database.py 65-72): writes `{"token": tok, "expires":
expires_at.isoformat()}`. -/
def store_token (db : Database) (uid : Int) (tok : String) (expiresAt : Int) :
    Database :=
  { db with tokens := alPut db.tokens uid ⟨tok, .iso expiresAt⟩ }

/-- Parsed token data as returned to callers of `get_user_token_data`. -/
structure ParsedToken where
  token : String
  expires : Int
deriving DecidableEq, Repr

/-- `get_user_token_data` (database.py 74-88).  Looks up `tokens[str(uid)]`;
on a successful parse it *mutates the stored dict in place*
(`token_data['expires'] = datetime.fromisoformat(...)`, line 80) before
returning it; on a parse failure (`ValueError`/`TypeError`) it logs and
returns `None` without mutating. -/
def get_user_token_data (db : Database) (uid : Int) :
    Option ParsedToken × Database :=
  match alGet db.tokens uid with
  | none => (none, db)
  | some e =>
    match fromisoformat e.expires with
    | .ok t =>
        (some ⟨e.token, t⟩,
         { db with tokens := alPut db.tokens uid ⟨e.token, .dt t⟩ })
    | .error _ => (none, db)

/-- `update_spam_time` (database.py 90-95): writes `now.isoformat()` into
`spam_tracker[str(uid)]`. -/
def update_spam_time (db : Database) (uid : Int) (now : Int) : Database :=
  { db with spamTracker := alPut db.spamTracker uid (.iso now) }

/-- `get_last_spam_time` (database.py 97-107): returns the parsed timestamp,
or `None` when absent or unparsable.  Unlike `get_user_token_data` it does
not write back. -/
def get_last_spam_time (db : Database) (uid : Int) : Option Int :=
  match alGet db.spamTracker uid with
  | none => none
  | some v =>
    match fromisoformat v with
    | .ok t => some t
    | .error _ => none

/-! ### Lock discipline (`_db_lock`, database.py 9)

Each public operation of `database.py` is abstracted to its trace of atomic
actions on shared resources; `acquire`/`release` are the `async with
_db_lock` boundaries.  Only `load_db` and `save_db` contain such a block; the
record-level operations touch `_database` directly and call `save_db` for
their file write. -/

/-- An atomic action of a `database.py` operation. -/
inductive DbAct
  | acquire
  | release
  | memRead
  | memWrite
  | fileRead
  | fileWrite
deriving DecidableEq, Repr

/-- `save_db` body (database.py 42-50): `async with _db_lock:` around the
`json.dump` file write. -/
def save_db_acts : List DbAct := [.acquire, .fileWrite, .release]

/-- `load_db` body (database.py 12-40), success path: `async with _db_lock:`
around reading the file and installing the parsed dict. -/
def load_db_acts : List DbAct := [.acquire, .fileRead, .memWrite, .release]

/-- `add_user` (52-59), new-user path: membership test and append on
`_database` with no lock, then the `save_db` call. -/
def add_user_acts : List DbAct := [.memRead, .memWrite] ++ save_db_acts

/-- `get_all_users` (61-63): unlocked read. -/
def get_all_users_acts : List DbAct := [.memRead]

/-- `store_token` (65-72): unlocked write, then `save_db`. -/
def store_token_acts : List DbAct := [.memWrite] ++ save_db_acts

/-- `get_user_token_data` (74-88): unlocked read and the in-place `expires`
write. -/
def get_user_token_data_acts : List DbAct := [.memRead, .memWrite]

/-- `update_spam_time` (90-95): unlocked write, then `save_db`. -/
def update_spam_time_acts : List DbAct := [.memWrite] ++ save_db_acts

/-- `get_last_spam_time` (97-107): unlocked read. -/
def get_last_spam_time_acts : List DbAct := [.memRead]

/-- The public record-level operations of the store (the spec's
register-caller, list-callers, get/put token, get/put throttle mark). -/
def publicDbOps : List (String × List DbAct) :=
  [("add_user", add_user_acts),
   ("get_all_users", get_all_users_acts),
   ("store_token", store_token_acts),
   ("get_user_token_data", get_user_token_data_acts),
   ("update_spam_time", update_spam_time_acts),
   ("get_last_spam_time", get_last_spam_time_acts)]

/-- Simulates the lock along a trace and checks that every data action
(memory or file) happens while the lock is held — i.e. the operation holds
the mutual-exclusion lock for its full duration. -/
def lockedThroughout (acts : List DbAct) : Bool :=
  go false acts
where
  go : Bool → List DbAct → Bool
  | _, [] => true
  | _, .acquire :: rest => go true rest
  | _, .release :: rest => go false rest
  | held, _ :: rest => held && go held rest

/-- Checks that every *file* action in a trace happens while the lock is
held (memory actions are unconstrained). -/
def fileAccessesLocked (acts : List DbAct) : Bool :=
  go false acts
where
  go : Bool → List DbAct → Bool
  | _, [] => true
  | _, .acquire :: rest => go true rest
  | _, .release :: rest => go false rest
  | held, .fileRead :: rest => held && go held rest
  | held, .fileWrite :: rest => held && go held rest
  | held, _ :: rest => go held rest

/-- Checks that every *memory* action in a trace happens while the lock is
not held. -/
def memAccessesUnlocked (acts : List DbAct) : Bool :=
  go false acts
where
  go : Bool → List DbAct → Bool
  | _, [] => true
  | _, .acquire :: rest => go true rest
  | _, .release :: rest => go false rest
  | held, .memRead :: rest => !held && go held rest
  | held, .memWrite :: rest => !held && go held rest
  | held, _ :: rest => go held rest

/-! ## Admission chain (`src/bot/decorators.py`)

The module's import statements (decorators.py 1-11) bind these names; a
reference to any other global raises `NameError` at run time.  Notably
neither `asyncio` nor `humanize` is bound, although line 81 evaluates
`asyncio.sleep` and line 123 evaluates `humanize.naturaltime`. -/

/-- Global names bound in the `bot.decorators` module namespace by its
imports and top-level definitions. -/
def decoratorsNames : List String :=
  ["time", "logging", "wraps", "datetime", "timedelta", "timezone",
   "Client", "Message", "CallbackQuery", "InlineKeyboardButton",
   "InlineKeyboardMarkup", "UserNotParticipant", "FloodWait",
   "config", "database", "format_time_diff", "LOGGER",
   "admin_required", "fsub_required", "token_required", "spam_check"]

/-- CPython name resolution in `bot.decorators`: yields the unit value when
the name is bound, raises `NameError` otherwise. -/
def resolveDecoratorsName (n : String) : Except PyExc Unit :=
  if n ∈ decoratorsNames then .ok () else .error .nameError

/-- Branch taken by the `token_required` gate (decorators.py 98-132). -/
inductive TokenOutcome
  | proceed
  | deniedTokenRequired
  | deniedTokenExpired (expiredAgo : Int)
deriving DecidableEq, Repr

/-- Decision logic of `token_required` (decorators.py 100-131): admins
bypass; no token data → token-required denial; `now_utc > expires_at` →
token-expired denial (surfacing how long ago it expired); otherwise
proceed. -/
def token_required_decide (isAdmin : Bool) (tokenData : Option ParsedToken)
    (now : Int) : TokenOutcome :=
  if isAdmin then .proceed
  else
    match tokenData with
    | none => .deniedTokenRequired
    | some td =>
      if now > td.expires then .deniedTokenExpired (now - td.expires)
      else .proceed

/-- Execution of the `token_required` wrapper including name resolution: the
token-expired branch builds its reply with `humanize.naturaltime(now_utc -
expires_at)` (line 123), so it first resolves the global `humanize`; there
is no `try` in the wrapper, so a `NameError` propagates to the caller. -/
def token_required_run (isAdmin : Bool) (tokenData : Option ParsedToken)
    (now : Int) : Except PyExc TokenOutcome :=
  if isAdmin then .ok .proceed
  else
    match tokenData with
    | none => .ok .deniedTokenRequired
    | some td =>
      if now > td.expires then
        (resolveDecoratorsName "humanize").map
          (fun _ => .deniedTokenExpired (now - td.expires))
      else .ok .proceed

/-- Execution of the `except FloodWait` handler of the fsub gate
(decorators.py 79-83): it logs, evaluates `asyncio.sleep(fw.value + 1)` and
then returns (deny without retrying).  Resolving `asyncio` is the first
step of that evaluation. -/
def fsub_floodwait_run (_w : Int) : Except PyExc Unit :=
  (resolveDecoratorsName "asyncio").map (fun _ => ())

/-- Outcome of the `spam_check` gate (decorators.py 136-166). -/
inductive SpamOutcome
  | admitted
  | deniedRateLimited (wait : Int)
deriving DecidableEq, Repr

/-- The atomic decision region of `spam_check` (decorators.py 145-163) for a
non-admin caller: read the last accepted time, deny with the remaining wait
when inside the cooldown window (`time_since_last < delay`, strict), else
write the mark to `now` and admit.  Between the mark read
(`get_last_spam_time`, pure dict access) and the in-memory mark write
(database.py 93, before the awaited `save_db`) the coroutine never suspends,
so the region is atomic under asyncio's cooperative scheduling. -/
def spam_check_decide (delay : Int) (mark : Option Int) (now : Int) :
    SpamOutcome × Option Int :=
  match mark with
  | some last =>
    if now - last < delay then (.deniedRateLimited (delay - (now - last)), some last)
    else (.admitted, some now)
  | none => (.admitted, some now)

/-! ### Interleaving two `spam_check` runs

Each concurrent handler task performs its decision region atomically (see
`spam_check_decide`) and afterwards only suspends on actions that never
touch the throttle mark (`save_db`'s file write, the reply, the gated
handler).  A system of two such tasks is driven by an arbitrary schedule:
each schedule entry names the task to run next and the wall-clock time at
which it runs; scheduling a task that has already decided models its
remaining mark-preserving actions. -/

/-- One handler task running `spam_check`. -/
structure SpamTask where
  decided : Bool
  outcome : Option SpamOutcome
deriving DecidableEq, Repr

/-- Shared state: the caller's throttle mark plus the two tasks. -/
structure SpamSys where
  mark : Option Int
  ta : SpamTask
  tb : SpamTask
deriving DecidableEq, Repr

/-- Initial system: no mark for this caller, neither task has run. -/
def SpamSys.init : SpamSys := ⟨none, ⟨false, none⟩, ⟨false, none⟩⟩

/-- Initial system with a pre-existing throttle mark. -/
def SpamSys.initWith (m : Option Int) : SpamSys := ⟨m, ⟨false, none⟩, ⟨false, none⟩⟩

/-- Scheduler step: run task `who` (true = `ta`) at time `now`.  A task that
has not yet decided executes its atomic decision region; a decided task's
remaining actions do not touch the mark. -/
def spamStep (delay : Int) (s : SpamSys) (who : Bool) (now : Int) : SpamSys :=
  if who then
    if s.ta.decided then s
    else
      let r := spam_check_decide delay s.mark now
      { s with mark := r.2, ta := ⟨true, some r.1⟩ }
  else
    if s.tb.decided then s
    else
      let r := spam_check_decide delay s.mark now
      { s with mark := r.2, tb := ⟨true, some r.1⟩ }

/-- Run a whole schedule (a list of `(task, time)` pairs). -/
def spamRun (delay : Int) : List (Bool × Int) → SpamSys → SpamSys
  | [], s => s
  | (w, t) :: rest, s => spamRun delay rest (spamStep delay s w t)

/-- Exactly one of the two tasks was admitted and the other was denied with
the rate-limit outcome. -/
def exactlyOneAdmitted (s : SpamSys) : Prop :=
  (s.ta.outcome = some .admitted ∧ ∃ w, s.tb.outcome = some (.deniedRateLimited w)) ∨
  (s.tb.outcome = some .admitted ∧ ∃ w, s.ta.outcome = some (.deniedRateLimited w))

/-! ## Link resolver (`src/bot/utils/terabox.py`)

The module imports (terabox.py 1-8) bind `re`, `httpx`, `logging`,
`asyncio`, `urlparse`, `parse_qs`, `Tuple`, `Optional`, `config`; `math` is
never imported although `_format_bytes` (lines 243-245) evaluates
`math.floor`/`math.log`/`math.pow`; `json` is imported only *inside*
`get_terabox_download_link`'s strategy-2 block (line 94), so it is a local
name bound only when that block has executed. -/

/-- Global names bound in the `bot.utils.terabox` module namespace. -/
def teraboxNames : List String :=
  ["re", "httpx", "logging", "asyncio", "urlparse", "parse_qs", "Tuple",
   "Optional", "config", "LOGGER", "TERABOX_LINK_REGEX", "HEADERS",
   "get_terabox_download_link", "_extract_filename", "_extract_filesize_str",
   "_format_bytes", "extract_terabox_link"]

/-- CPython name resolution in `bot.utils.terabox`. -/
def resolveTeraboxName (n : String) : Except PyExc Unit :=
  if n ∈ teraboxNames then .ok () else .error .nameError

/-- Occurrence test on character lists (Python's `needle in haystack`). -/
def containsSub (pat : List Char) : List Char → Bool
  | [] => pat.isEmpty
  | c :: rest => pat.isPrefixOf (c :: rest) || containsSub pat rest

/-- Substring test, modelling Python's `needle in haystack`. -/
def strContains (haystack needle : String) : Bool :=
  containsSub needle.data haystack.data

/-- Left-to-right non-overlapping replacement (Python `str.replace`),
fuel-indexed so that it is structurally recursive; `fuel = cs.length`
always suffices because each step consumes at least one character. -/
def replaceAllFuel (pat rep : List Char) : Nat → List Char → List Char
  | 0, cs => cs
  | _ + 1, [] => []
  | fuel + 1, c :: rest =>
    if pat.isPrefixOf (c :: rest) && !pat.isEmpty then
      rep ++ replaceAllFuel pat rep fuel (rest.drop (pat.length - 1))
    else c :: replaceAllFuel pat rep fuel rest

/-- Python `s.replace(pat, rep)`. -/
def strReplace (s pat rep : String) : String :=
  String.mk (replaceAllFuel pat.data rep.data s.data.length s.data)

/-- Python `s.strip()`. -/
def strStrip (s : String) : String :=
  String.mk
    ((((s.data.dropWhile Char.isWhitespace).reverse.dropWhile
        Char.isWhitespace)).reverse)

/-- ASCII uppercasing of a character (Python `str.upper` on the matched
size token, which is ASCII). -/
def asciiUpper (c : Char) : Char :=
  if 'a' ≤ c && c ≤ 'z' then Char.ofNat (c.toNat - 32) else c

/-- Python `s.upper()` for ASCII strings. -/
def strUpper (s : String) : String := String.mk (s.data.map asciiUpper)

/-- The text after the first `"://"`, if any. -/
def afterScheme : List Char → Option (List Char)
  | [] => none
  | c :: rest =>
    if [':', '/', '/'].isPrefixOf (c :: rest) then some (rest.drop 2)
    else afterScheme rest

/-- `urlparse(s).netloc`: the text between the first `"://"` and the next
`/` (empty when the string has no scheme separator). -/
def netlocOf (s : String) : String :=
  match afterScheme s.data with
  | some r => String.mk (r.takeWhile (fun c => c ≠ '/'))
  | none => ""

/-- `urlparse(s).path`: the part after the netloc, with any query
stripped. -/
def urlPath (s : String) : String :=
  match afterScheme s.data with
  | some r =>
      String.mk ((r.dropWhile (fun c => c ≠ '/')).takeWhile (fun c => c ≠ '?'))
  | none => String.mk (s.data.takeWhile (fun c => c ≠ '?'))

/-- The last `/`-separated component of a path
(`parsed_url.path.split('/')[-1]`). -/
def lastPathComponent (s : String) : String :=
  String.mk ((s.data.reverse.takeWhile (fun c => c ≠ '/')).reverse)

/-- `_format_bytes` (terabox.py 238-246).  For `size_bytes == 0` it returns
`"0 B"` before touching `math`; for any other size its first step is the
global lookup of `math` in `int(math.floor(math.log(size_bytes, 1024)))`
(line 243), and `math` is unbound in this module, so it raises `NameError`.
The success continuation below is therefore unreachable (see
`tb_format_bytes_raises`) and its value is immaterial. -/
def tb_format_bytes (n : Nat) : Except PyExc String :=
  if n = 0 then .ok "0 B"
  else (resolveTeraboxName "math").map (fun _ => toString n ++ " B")

/-- On every nonzero size, `_format_bytes` raises `NameError` because
`math` is not imported in `terabox.py`. -/
theorem tb_format_bytes_raises (n : Nat) (h : n ≠ 0) :
    tb_format_bytes n = .error .nameError := by
  simp [tb_format_bytes, resolveTeraboxName, teraboxNames, h, Except.map]

/-- The fetched share page, described by what each of the resolver's regex
probes would find in it (`None` = no match).  `dlink1` is group 1 of the
strategy-1 pattern `'(?:dlink|download|download_url)' : '(https?://...)'`;
`title` is the `<title>` text; `sizeField` is the numeric `"size"` field;
`humanSize` is a human-readable size token; `jsState` is the parsed
`window.__INITIAL_STATE__` JSON; `fsId`/`shareId`/`uk` are the strategy-3
identifiers. -/
structure JsItem where
  dlink : Option String
  downloadLink : Option String
  sfName : Option String
  fName : Option String
  size : Option Nat
deriving DecidableEq, Repr

/-- The `__INITIAL_STATE__` object: its `list` field, and the
`shareData.fileList` field when a `shareData` key is present. -/
structure JsState where
  list : List JsItem
  shareDataFileList : Option (List JsItem)
deriving DecidableEq, Repr

/-- Outcome of `json.loads` on the embedded state: `bad` models a
`JSONDecodeError`. -/
inductive JsParse
  | bad
  | good (s : JsState)
deriving DecidableEq, Repr

structure Page where
  dlink1 : Option String
  serverFilename : Option String
  title : Option String
  sizeField : Option Nat
  humanSize : Option String
  jsState : Option JsParse
  fsId : Option Nat
  shareId : Option Nat
  uk : Option Nat
deriving DecidableEq, Repr

/-- A page on which no probe matches anything. -/
def Page.empty : Page := ⟨none, none, none, none, none, none, none, none, none⟩

/-- Python `a or b` on two optional strings (`None` and `""` are falsy). -/
def pyOrStr : Option String → Option String → Option String
  | some s, b => if s = "" then b else some s
  | none, b => b

/-- `_extract_filename` (terabox.py 191-218): `server_filename` field, else
the cleaned `<title>` when it looks like a filename (`'.' in title and
len(title) < 150`), else the last URL path component (when longer than 4
characters) with `.mp4` appended, else the hard default.  Total — it never
raises. -/
def tb_extract_filename (p : Page) (url : String) : String :=
  match p.serverFilename with
  | some f => f
  | none =>
    match p.title with
    | some t0 =>
      let t := strStrip (strReplace (strReplace t0 "- Terabox" "") "Terabox:" "")
      if strContains t "." && t.data.length < 150 then t
      else tbFilenameFromUrl url
    | none => tbFilenameFromUrl url
where
  tbFilenameFromUrl (url : String) : String :=
    let namePart := lastPathComponent (urlPath url)
    if namePart ≠ "" && namePart.data.length > 4 then namePart ++ ".mp4"
    else "terabox_video.mp4"

/-- `_extract_filesize_str` (terabox.py 220-236): a numeric `"size"` field
is formatted with `_format_bytes` inside a `try` that catches *only*
`ValueError` (line 228), so the `NameError` raised by `_format_bytes`
propagates out of this helper; with no numeric field it falls back to a
human-readable size token (uppercased), else `"Unknown"`. -/
def tb_extract_filesize_str (p : Page) : Except PyExc String :=
  match p.sizeField with
  | some n =>
    match tb_format_bytes n with
    | .ok s => .ok s
    | .error .valueError => tbHumanFallback p
    | .error e => .error e
  | none => tbHumanFallback p
where
  tbHumanFallback (p : Page) : Except PyExc String :=
    match p.humanSize with
    | some s => .ok (strUpper s)
    | none => .ok "Unknown"

/-- Strategy 1 (terabox.py 71-86): on a pattern match, unescape the link,
extract filename and size (the latter can raise, see
`tb_extract_filesize_str`), and accept only a link that contains `"http"`
and whose netloc contains a dot; otherwise fall through with `none`. -/
def strategy1 (page : Page) (url : String) :
    Except PyExc (Option (String × String × String)) :=
  match page.dlink1 with
  | none => .ok none
  | some raw =>
    let direct := strReplace raw "\\/" "/"
    let filename := tb_extract_filename page url
    (tb_extract_filesize_str page).bind fun sizeStr =>
      if filename ≠ "" && sizeStr ≠ "" then
        if strContains direct "http" && strContains (netlocOf direct) "." then
          .ok (some (direct, filename, sizeStr))
        else .ok none
      else .ok none

/-- The body of strategy 2 (terabox.py 95-121), before its surrounding
`except` clauses: pick the file list (`list`, else `shareData.fileList`),
take the first item, require truthy `dlink`/`downloadLink`, filename and a
truthy (nonzero) size, unescape the link, format the size
(`_format_bytes`, which raises `NameError` on any nonzero size) and accept
when the link contains `"http"`. -/
def strategy2core (js : JsState) :
    Except PyExc (Option (String × String × String)) :=
  let fl := if js.list.isEmpty then js.shareDataFileList.getD [] else js.list
  match fl with
  | [] => .ok none
  | item :: _ =>
    match pyOrStr item.dlink item.downloadLink, pyOrStr item.sfName item.fName,
        item.size with
    | some d0, some fn, some sz =>
      if d0 ≠ "" && fn ≠ "" && sz ≠ 0 then
        let d := strReplace d0 "\\/" "/"
        match tb_format_bytes sz with
        | .error e => .error e
        | .ok sizeStr =>
          if strContains d "http" then .ok (some (d, fn, sizeStr))
          else .ok none
      else .ok none
    | _, _, _ => .ok none

/-- Strategy 2 with its exception handling (terabox.py 93-126): a missing
script block or a `JSONDecodeError` falls through; any exception raised by
the body — including the `NameError` from `_format_bytes` — is caught by
`except Exception` (line 125), logged, and resolution falls through to
strategy 3. -/
def strategy2 (jsState : Option JsParse) : Option (String × String × String) :=
  match jsState with
  | none => none
  | some .bad => none
  | some (.good js) =>
    match strategy2core js with
    | .ok v => v
    | .error _ => none

/-- One entry of the experimental API response's `list`. -/
structure ApiItem where
  dlink : Option String
deriving DecidableEq, Repr

structure ApiResp where
  errno : Int
  list : List ApiItem
deriving DecidableEq, Repr

/-- Outcome of the secondary API request of strategy 3. -/
inductive ApiOutcome
  | ok (r : ApiResp)
  | requestErr
  | statusErr (code : Nat)
  | jsonErr
deriving DecidableEq, Repr

/-- The body of strategy 3's `try` (terabox.py 148-166): perform the API
call (each failure mode re-raised as the corresponding exception), then on
`errno == 0` with a nonempty list take the first entry's `dlink`, re-extract
filename and size from the initial page (the latter can raise `NameError`),
and default falsy values. -/
def strategy3core (page : Page) (url : String) (api : ApiOutcome) :
    Except PyExc (Option (String × String × String)) :=
  match api with
  | .requestErr => .error .requestError
  | .statusErr c => .error (.httpStatusError c)
  | .jsonErr => .error .jsonDecodeError
  | .ok resp =>
    if resp.errno = 0 && !resp.list.isEmpty then
      match resp.list with
      | [] => .ok none
      | item :: _ =>
        let filename := tb_extract_filename page url
        (tb_extract_filesize_str page).bind fun sizeStr =>
          match item.dlink with
          | some d =>
            if d ≠ "" then
              .ok (some (d,
                (if filename = "" then "terabox_video.mp4" else filename),
                (if sizeStr = "" then "Unknown" else sizeStr)))
            else .ok none
          | none => .ok none
    else .ok none

/-- Strategy 3's exception handling (terabox.py 168-173): `RequestError` is
caught by its own clause; for any other exception CPython next evaluates
the clause `except json.JSONDecodeError` — when the local `json` was never
bound (strategy 2's `import json` on line 94 did not run) that evaluation
itself raises `NameError`, which replaces the in-flight exception and
propagates to the outer handler; when `json` is bound, the exception is
caught by that clause or by `except Exception` and resolution falls
through. -/
def strategy3guard (jsonBound : Bool)
    (r : Except PyExc (Option (String × String × String))) :
    Except PyExc (Option (String × String × String)) :=
  match r with
  | .ok v => .ok v
  | .error .requestError => .ok none
  | .error _ => if jsonBound then .ok none else .error .nameError

/-- Error-classification log lines emitted by `get_terabox_download_link`
(only the terminal error-level lines are modelled). -/
inductive LogEvent
  | httpStatusErr (code : Nat)
  | authExpired
  | netErr
  | notFound
  | unexpected
deriving DecidableEq, Repr

/-- Outcome of the initial page fetch (terabox.py 64-65):
`raise_for_status` turns a non-2xx status into `HTTPStatusError`. -/
inductive FetchOutcome
  | ok (p : Page)
  | statusErr (code : Nat)
  | requestErr
deriving DecidableEq, Repr

/-- Environment of one resolution attempt: the share URL, the fetch
outcome, and the outcome the API call would have. -/
structure ResolveEnv where
  url : String
  fetch : FetchOutcome
  api : ApiOutcome
deriving DecidableEq, Repr

/-- The strategy cascade inside the outer `try` (terabox.py 69-177): run
strategy 1; on fall-through run strategy 2 (whose exceptions are contained);
on fall-through, and only when all three identifiers were found, run
strategy 3 under its guard.  `.ok none` is the all-strategies-exhausted
case (line 176-177). -/
def resolveBody (page : Page) (url : String) (api : ApiOutcome) :
    Except PyExc (Option (String × String × String)) :=
  (strategy1 page url).bind fun r1 =>
  match r1 with
  | some r => .ok (some r)
  | none =>
    match strategy2 page.jsState with
    | some r => .ok (some r)
    | none =>
      match page.fsId, page.shareId, page.uk with
      | some _, some _, some _ =>
        strategy3guard page.jsState.isSome (strategy3core page url api)
      | _, _, _ => .ok none

/-- `get_terabox_download_link` (terabox.py 42-189): network-layer failures
of the initial fetch and any exception escaping the strategy cascade are
all converted to the same `(None, None, None)` triple; a 401/403 status is
noted in an extra log line (line 181-182) but not in the returned value. -/
def resolve (env : ResolveEnv) :
    (Option String × Option String × Option String) × List LogEvent :=
  match env.fetch with
  | .statusErr c =>
      ((none, none, none),
       .httpStatusErr c :: (if c = 401 ∨ c = 403 then [.authExpired] else []))
  | .requestErr => ((none, none, none), [.netErr])
  | .ok page =>
    match resolveBody page env.url env.api with
    | .ok (some (d, f, s)) => ((some d, some f, some s), [])
    | .ok none => ((none, none, none), [.notFound])
    | .error _ => ((none, none, none), [.unexpected])

/-! ## Transfer pipeline (`src/message.py`, `download_and_upload`)

The pipeline is embedded as a deterministic function of an environment that
fixes the download response and the outcome of each external transport call
(status edits, the two `send_video` attempts, the status deletion, the two
forward attempts).  `progress_callback` (helpers.py 6-32) swallows every
exception internally, so progress calls need no outcome.  Only the chunk
byte-counts of the stream matter for the claims. -/

/-- `MAX_TG_UPLOAD_SIZE_BYTES` (message.py 19). -/
def MAX_TG_UPLOAD_SIZE_BYTES : Nat := 2 * 1024 * 1024 * 1024

/-- Outcome of one external transport call. -/
inductive CallRes
  | ok
  | exc (e : PyExc)
deriving DecidableEq, Repr

/-- The download response: `raise_for_status` failure, a network error, or
a streamed body with an optional `Content-Length` and a list of chunk
sizes. -/
inductive RespModel
  | statusErr (code : Nat)
  | requestErr
  | body (contentLength : Option Nat) (chunks : List Nat)
deriving DecidableEq, Repr

/-- Fixed outcomes of the external calls of one `download_and_upload` run,
in source order: the initial status edit (line 83), the response, the
too-large edit (98), the unknown-size completion edit (130), the
download-failure edit (one of 138/142/146/150), the pre-upload edit (167),
`send_video` (176), `status_msg.delete()` (186), the flood-notice edit
(190), the retried `send_video` (194), the retried delete (198), the
upload-failure edit (one of 201/205/208), and the two forward attempts
(213/219). -/
structure TransferEnv where
  editStart : CallRes
  resp : RespModel
  editTooLarge : CallRes
  editDlDone : CallRes
  editDlFail : CallRes
  editUploading : CallRes
  sendVideo : CallRes
  statusDelete : CallRes
  editFloodNotice : CallRes
  sendVideoRetry : CallRes
  statusDeleteRetry : CallRes
  editUploadFail : CallRes
  forward1 : CallRes
  forward2 : CallRes
  dumpConfigured : Bool
deriving DecidableEq, Repr

/-- State of the caller-scoped temporary file: whether it was ever created
and whether it is currently on disk. -/
structure Fs where
  created : Bool
  onDisk : Bool
deriving DecidableEq, Repr

/-- User-visible terminal status of a run that did not propagate an
exception. -/
inductive TransferOutcome
  | tooLargeDeclared (n : Nat)
  | tooLargeStreamed
  | downloadHttpError (code : Nat)
  | downloadNetError
  | completed (uploaded : Bool) (bytes : Nat)
deriving DecidableEq, Repr

/-- The streaming loop (message.py 115-122): write each chunk, add its
length to the running total, and abort (`raise ValueError`) as soon as the
total exceeds the limit.  Returns the bytes written and whether the limit
was exceeded. -/
def streamChunks (limit : Nat) : List Nat → Nat → Nat × Bool
  | [], acc => (acc, false)
  | c :: rest, acc =>
    let acc' := acc + c
    if acc' > limit then (acc', true) else streamChunks limit rest acc'

/-- Result of the download section (message.py 83-163): an exception
propagated out of the function, an early `return` with a terminal status,
or a completed download of the given size. -/
inductive DlPhase
  | raised (e : PyExc) (fs : Fs)
  | earlyReturn (o : TransferOutcome) (fs : Fs)
  | proceed (bytes : Nat) (fs : Fs)
deriving DecidableEq, Repr

/-- The streaming part of the download phase (message.py 111-134), entered
only after the declared-size check passed or no length was declared: the
file is created, chunks are streamed under the running-total check, and on
the unknown-size path a completion edit (line 130) runs *before*
`downloaded_successfully` is set (line 133), so an exception there still
hits the `finally` with the success flag unset and the file is removed. -/
def streamPart (env : TransferEnv) (limit : Nat) (chunks : List Nat)
    (sizeKnown : Bool) : DlPhase :=
  let r := streamChunks limit chunks 0
  if r.2 then
    match env.editDlFail with
    | .exc e => .raised e ⟨true, false⟩
    | .ok => .earlyReturn .tooLargeStreamed ⟨true, false⟩
  else
    if sizeKnown then .proceed r.1 ⟨true, true⟩
    else
      match env.editDlDone with
      | .exc e => .raised e ⟨true, false⟩
      | .ok => .proceed r.1 ⟨true, true⟩

/-- The download section (message.py 83-163).  The `finally` (152-159)
removes the file whenever `downloaded_successfully` is still false, on
normal and exceptional exits alike; the declared-length rejection (97-102)
happens before `aiofiles.open`, so no file is ever created on that path. -/
def downloadPhase (env : TransferEnv) (limit : Nat) : DlPhase :=
  match env.editStart with
  | .exc e => .raised e ⟨false, false⟩
  | .ok =>
    match env.resp with
    | .statusErr c =>
      match env.editDlFail with
      | .exc e => .raised e ⟨false, false⟩
      | .ok => .earlyReturn (.downloadHttpError c) ⟨false, false⟩
    | .requestErr =>
      match env.editDlFail with
      | .exc e => .raised e ⟨false, false⟩
      | .ok => .earlyReturn .downloadNetError ⟨false, false⟩
    | .body contentLength chunks =>
      match contentLength with
      | some n =>
        if n > limit then
          match env.editTooLarge with
          | .exc e => .raised e ⟨false, false⟩
          | .ok => .earlyReturn (.tooLargeDeclared n) ⟨false, false⟩
        else streamPart env limit chunks true
      | none => streamPart env limit chunks false

/-- The `except` dispatch of the upload phase (message.py 188-208) for an
exception `e` raised inside the upload `try`: `FloodWait` → notice edit,
sleep, one retried `send_video` whose own failure (or a failure of the
retried delete) is caught by `except Exception` (199); `RPCError` and
anything else → the upload-failure edit.  `uploadedAlready` records whether
`uploaded_message` was already assigned (the first `send_video` succeeded
and `e` came from the status deletion).  Returns whether
`uploaded_message` is set afterwards; an exception raised by one of the
handler's own edits propagates. -/
def uploadExcHandler (env : TransferEnv) (e : PyExc) (uploadedAlready : Bool) :
    Except PyExc Bool :=
  match e with
  | .floodWait _ =>
    match env.editFloodNotice with
    | .exc e' => .error e'
    | .ok =>
      match env.sendVideoRetry with
      | .ok =>
        match env.statusDeleteRetry with
        | .ok => .ok true
        | .exc _ =>
          match env.editUploadFail with
          | .exc e'' => .error e''
          | .ok => .ok true
      | .exc _ =>
        match env.editUploadFail with
        | .exc e'' => .error e''
        | .ok => .ok uploadedAlready
  | _ =>
    match env.editUploadFail with
    | .exc e'' => .error e''
    | .ok => .ok uploadedAlready

/-- The upload phase (message.py 166-208): the pre-upload status edit (167)
runs outside every `try`, so its exception propagates directly;
`send_video` and the status deletion run inside the `try` whose handlers
are `uploadExcHandler`.  Returns whether `uploaded_message` is set. -/
def uploadPhase (env : TransferEnv) : Except PyExc Bool :=
  match env.editUploading with
  | .exc e => .error e
  | .ok =>
    match env.sendVideo with
    | .ok =>
      match env.statusDelete with
      | .ok => .ok true
      | .exc e => uploadExcHandler env e true
    | .exc e => uploadExcHandler env e false

/-- The archive-forward phase (message.py 211-223): attempted only when an
uploaded message exists and a dump chat is configured; a `FloodWait` is
retried once and every exception of either attempt is caught, so this phase
never raises.  Returns whether the forward succeeded. -/
def forwardPhase (env : TransferEnv) (uploaded : Bool) : Bool :=
  if uploaded && env.dumpConfigured then
    match env.forward1 with
    | .ok => true
    | .exc (.floodWait _) =>
      match env.forward2 with
      | .ok => true
      | .exc _ => false
    | .exc _ => false
  else false

instance {ε α : Type} [DecidableEq ε] [DecidableEq α] :
    DecidableEq (Except ε α) := fun x y =>
  match x, y with
  | .ok a, .ok b =>
    if h : a = b then .isTrue (congrArg Except.ok h)
    else .isFalse (fun hh => h (Except.ok.inj hh))
  | .error a, .error b =>
    if h : a = b then .isTrue (congrArg Except.error h)
    else .isFalse (fun hh => h (Except.error.inj hh))
  | .ok _, .error _ => .isFalse (fun hh => Except.noConfusion hh)
  | .error _, .ok _ => .isFalse (fun hh => Except.noConfusion hh)

/-- Result of a full `download_and_upload` run: the terminal status (or the
exception the function propagated), whether the artifact was forwarded, and
the final state of the temporary file. -/
structure TransferResult where
  outcome : Except PyExc TransferOutcome
  forwarded : Bool
  fs : Fs
deriving DecidableEq, Repr

/-- `download_and_upload` (message.py 77-231).  The final cleanup (226-231)
is a plain `if os.path.exists` at the end of the function body — not a
`finally` — so it runs only when the upload phase terminates without
propagating an exception; the download section's own `finally` covers only
that section. -/
def download_and_upload (env : TransferEnv) (limit : Nat) : TransferResult :=
  match downloadPhase env limit with
  | .raised e fs => ⟨.error e, false, fs⟩
  | .earlyReturn o fs => ⟨.ok o, false, fs⟩
  | .proceed bytes fs =>
    match uploadPhase env with
    | .error e => ⟨.error e, false, fs⟩
    | .ok uploaded =>
      let fwd := forwardPhase env uploaded
      ⟨.ok (.completed uploaded bytes), fwd, ⟨fs.created, false⟩⟩

/-- A benign environment: every transport call succeeds. -/
def TransferEnv.allOk (resp : RespModel) : TransferEnv :=
  ⟨.ok, resp, .ok, .ok, .ok, .ok, .ok, .ok, .ok, .ok, .ok, .ok, .ok, .ok, true⟩

/-! ## Share-link recognition and the message handler (`src/message.py`)

`TERABOX_LINK_REGEX` (terabox.py 13-15) is
`https?://(?:(?:1024)?terabox|teraboxlink|terafileshare)\.(?:com|app)/([s]/)?([a-zA-Z0-9_-]+)`;
it is translated into an executable leftmost-match scanner with the same
backtracking order (the `1024`-prefixed host alternative first, then the
bare host, then the remaining alternation branches; the optional `s/` group
is tried greedily). -/

/-- The character class `[a-zA-Z0-9_-]`. -/
def isWordChar (c : Char) : Bool := c.isAlphanum || c = '_' || c = '-'

/-- Length of the maximal run of `[a-zA-Z0-9_-]` characters. -/
def wordRunLen : List Char → Nat
  | [] => 0
  | c :: rest => if isWordChar c then wordRunLen rest + 1 else 0

/-- Remainder after a literal, when the literal is a prefix. -/
def stripLit (lit : List Char) (cs : List Char) : Option (List Char) :=
  if lit.isPrefixOf cs then some (cs.drop lit.length) else none

/-- Match `/([s]/)?([a-zA-Z0-9_-]+)` (the tail of the regex after the TLD):
the `s/` branch is tried first (greedy optional group), falling back to a
bare word run; the run must be nonempty. -/
def teraboxTailLen (cs : List Char) : Option Nat :=
  match cs with
  | 's' :: '/' :: rest =>
    if wordRunLen rest > 0 then some (2 + wordRunLen rest)
    else if wordRunLen cs > 0 then some (wordRunLen cs) else none
  | _ => if wordRunLen cs > 0 then some (wordRunLen cs) else none

/-- Match `\.(?:com|app)/` then the tail, returning the matched length. -/
def teraboxAfterHostLen (cs : List Char) : Option Nat :=
  match stripLit ['.'] cs with
  | none => none
  | some cs1 =>
    let tld :=
      match stripLit "com".data cs1 with
      | some r => some (3, r)
      | none =>
        match stripLit "app".data cs1 with
        | some r => some (3, r)
        | none => none
    match tld with
    | none => none
    | some (tl, cs2) =>
      match stripLit ['/'] cs2 with
      | none => none
      | some cs3 =>
        (teraboxTailLen cs3).map (fun n => 1 + tl + 1 + n)

/-- The host alternatives in backtracking order. -/
def teraboxHosts : List (List Char) :=
  ["1024terabox".data, "terabox".data, "teraboxlink".data,
   "terafileshare".data]

/-- Try each host alternative at this position, backtracking to the next
alternative when the rest of the pattern fails. -/
def teraboxHostLen (hosts : List (List Char)) (cs : List Char) : Option Nat :=
  match hosts with
  | [] => none
  | h :: rest =>
    match stripLit h cs with
    | some cs1 =>
      match teraboxAfterHostLen cs1 with
      | some n => some (h.length + n)
      | none => teraboxHostLen rest cs
    | none => teraboxHostLen rest cs

/-- Match the whole pattern at this position (group 0 length).  `https?` is
deterministic: `https://` when present, else `http://`. -/
def teraboxMatchLen (cs : List Char) : Option Nat :=
  let scheme :=
    match stripLit "https://".data cs with
    | some r => some (8, r)
    | none =>
      match stripLit "http://".data cs with
      | some r => some (7, r)
      | none => none
  match scheme with
  | none => none
  | some (sl, cs1) => (teraboxHostLen teraboxHosts cs1).map (fun n => sl + n)

/-- `re.search`: leftmost match, returning the matched characters. -/
def teraboxSearch : List Char → Option (List Char)
  | [] => none
  | c :: rest =>
    match teraboxMatchLen (c :: rest) with
    | some n => some ((c :: rest).take n)
    | none => teraboxSearch rest

/-- `extract_terabox_link` (terabox.py 248-251): `match.group(0)` of the
first match, `None` otherwise. -/
def extract_terabox_link (text : String) : Option String :=
  (teraboxSearch text.data).map (fun l => String.mk l)

/-- Outcome of one inbound text message pushed through the decorator chain
`fsub_required` → `token_required` → `spam_check` → `message_handler`
(message.py 22-47). -/
inductive ChainOutcome
  | membershipDenied
  | tokenRequired
  | tokenExpired (expiredAgo : Int)
  | spamDenied (wait : Int)
  | invalidInput
  | processing (link : String)
deriving DecidableEq, Repr

/-- Per-caller admission context. -/
structure ChainCtx where
  isAdmin : Bool
  isMember : Bool
  tokenData : Option ParsedToken
deriving DecidableEq, Repr

/-- The head of `message_handler`'s body (message.py 26-50): extract a
share link; with no link, reply with the invalid-input message and return —
the code deliberately leaves the spam timestamp in place (comment on lines
43-45). -/
def handlerBody (text : String) : ChainOutcome :=
  match extract_terabox_link text with
  | none => .invalidInput
  | some l => .processing l

/-- The composed decorator chain on a text message: membership gate
(admins bypass), token gate, spam gate (admins bypass; on admission the
mark is updated before the handler body runs), then the handler body.
Returns the outcome and the caller's throttle mark afterwards. -/
def process_message (ctx : ChainCtx) (delay : Int) (mark : Option Int)
    (now : Int) (text : String) : ChainOutcome × Option Int :=
  if !ctx.isAdmin && !ctx.isMember then (.membershipDenied, mark)
  else
    match token_required_decide ctx.isAdmin ctx.tokenData now with
    | .deniedTokenRequired => (.tokenRequired, mark)
    | .deniedTokenExpired a => (.tokenExpired a, mark)
    | .proceed =>
      if ctx.isAdmin then (handlerBody text, mark)
      else
        match spam_check_decide delay mark now with
        | (.deniedRateLimited w, m) => (.spamDenied w, m)
        | (.admitted, m) => (handlerBody text, m)

/-! ## Auxiliary definitions for the verification -/

/-- Reachability invariant for two concurrent `spam_check` runs over a
schedule whose decision times all lie in `T`, starting from throttle mark
`m0`: either nothing has run, or exactly one task has decided (admitted,
mark set to a schedule time), or both have decided with exactly one
admitted. -/
def SpamInv (T : List Int) (m0 : Option Int) (s : SpamSys) : Prop :=
  (s.ta.decided = false ∧ s.ta.outcome = none ∧
   s.tb.decided = false ∧ s.tb.outcome = none ∧ s.mark = m0)
  ∨ (s.ta.decided = true ∧ s.ta.outcome = some .admitted ∧
     s.tb.decided = false ∧ s.tb.outcome = none ∧ ∃ t ∈ T, s.mark = some t)
  ∨ (s.tb.decided = true ∧ s.tb.outcome = some .admitted ∧
     s.ta.decided = false ∧ s.ta.outcome = none ∧ ∃ t ∈ T, s.mark = some t)
  ∨ (s.ta.decided = true ∧ s.tb.decided = true ∧ exactlyOneAdmitted s ∧
     ∃ t ∈ T, s.mark = some t)

/-- A page on which strategy 1 finds a valid direct link and a filename and
the page carries a numeric `"size"` field — the resolver then calls
`_format_bytes` on the size. -/
def sizeBugPage : Page :=
  ⟨some "https://d.example.com/f.mp4", some "clip.mp4", none, some 1024,
   none, none, none, none, none⟩

/-- The same page with a human-readable size token instead of the numeric
field. -/
def humanSizePage : Page :=
  ⟨some "https://d.example.com/f.mp4", some "clip.mp4", none, none,
   some "1.2 GB", none, none, none, none⟩

/-- Transfer environment in which everything succeeds except the pre-upload
status edit (message.py 167), which raises a `FloodWait`. -/
def c5Env : TransferEnv :=
  { TransferEnv.allOk (.body (some 100) [100]) with
    editUploading := .exc (.floodWait 5) }

/-! ## Claim C3: the token gate's admission condition -/

/-- C3, counterexample.  The claim states the gate admits iff
`now < expiresAt` and in particular denies at the instant
`now = expiresAt`; but the code denies only when `now_utc > expires_at`
(decorators.py 120), so at `now = expiresAt` the gate admits. -/
theorem token_gate_boundary_counterexample :
    token_required_decide false (some ⟨"tok", 100⟩) 100 = .proceed ∧
    ¬ ((100 : Int) < 100) := by
  exact ⟨by decide, by decide⟩

/-- C3, amended.  For a non-privileged caller the gate admits iff
`now ≤ T.expiresAt` (it admits at the exact expiry instant); a missing
token takes the token-required denial branch; a token with
`now > expiresAt` takes the token-expired denial branch with the elapsed
time since expiry surfaced; privileged callers bypass. -/
theorem token_gate_amended (td : ParsedToken) (now : Int) :
    token_required_decide false none now = .deniedTokenRequired ∧
    token_required_decide false (some td) now =
      (if now ≤ td.expires then .proceed
       else .deniedTokenExpired (now - td.expires)) ∧
    token_required_decide true (some td) now = .proceed := by
  refine ⟨rfl, ?_, rfl⟩
  by_cases h : td.expires < now
  · simp [token_required_decide, h, not_le.mpr h]
  · simp [token_required_decide, h, not_lt.mp h]

/-! ## Claim C4: the store's lock discipline -/

/-- C4, counterexample.  The claim states every public store operation
holds `_db_lock` for its full duration; but `add_user` (database.py 52-59)
reads and mutates `_database` before any lock acquisition — only the
`save_db` it calls locks, and only around the file write.  The same holds
for every record-level operation. -/
theorem store_lock_counterexample :
    lockedThroughout add_user_acts = false ∧
    publicDbOps.all (fun p => lockedThroughout p.2) = false := by decide

/-- C4, amended.  Only `load_db` and `save_db` acquire `_db_lock` for their
full duration; the record-level operations access the in-memory state with
the lock not held, and the file I/O they trigger through `save_db` does run
under the lock. -/
theorem store_lock_amended :
    lockedThroughout load_db_acts = true ∧
    lockedThroughout save_db_acts = true ∧
    publicDbOps.all (fun p => fileAccessesLocked p.2) = true ∧
    publicDbOps.all (fun p => memAccessesUnlocked p.2) = true := by decide

/-! ## Claim C6: reading a token is not side-effect free -/

/-- C6.  Reading a stored token is *not* a pure query: `get_user_token_data`
returns the parsed token but replaces the stored ISO expiry string with a
`datetime` object in place (database.py 80); afterwards `save_db` fails
(`json.dump` raises `TypeError` on the `datetime`, caught and logged), and
a second read hits `fromisoformat` on a non-string, which is treated as
"no token". -/
theorem token_read_mutates_store :
    (get_user_token_data (store_token Database.empty 1 "tok" 100) 1).1 =
      some ⟨"tok", 100⟩ ∧
    (get_user_token_data (store_token Database.empty 1 "tok" 100) 1).2 ≠
      store_token Database.empty 1 "tok" 100 ∧
    save_db (get_user_token_data (store_token Database.empty 1 "tok" 100) 1).2 =
      .failed ∧
    (get_user_token_data
      (get_user_token_data (store_token Database.empty 1 "tok" 100) 1).2 1).1 =
      none := by decide

/-! ## Claim C7: strategy field accesses can abort the whole resolution -/

/-- C7.  On a page where strategy 1 matches a valid direct link and the
page carries a numeric `"size"` field, `_extract_filesize_str` calls
`_format_bytes`, which evaluates the unbound global `math` and raises
`NameError`; the helper's `try` catches only `ValueError`, so the exception
escapes the strategy cascade to the outer handler and the whole resolution
aborts to `(None, None, None)` — strategies 2 and 3 are never tried.  With
a human-readable size token instead, the very same link is accepted,
isolating the missing `import math` as the cause. -/
theorem strategy_field_access_aborts_resolution :
    resolve ⟨"https://terabox.com/s/abc", .ok sizeBugPage, .ok ⟨0, []⟩⟩ =
      ((none, none, none), [.unexpected]) ∧
    tb_format_bytes 1024 = .error .nameError ∧
    resolve ⟨"https://terabox.com/s/abc", .ok humanSizePage, .ok ⟨0, []⟩⟩ =
      ((some "https://d.example.com/f.mp4", some "clip.mp4", some "1.2 GB"),
       []) := by decide

/-! ## Claim C8: failure causes are not distinguishable in the result -/

/-- C8, counterexample.  A 401 authorization failure, a network-layer
failure and strategy exhaustion all make `get_terabox_download_link`
return the identical `(None, None, None)` triple — the claimed distinct
`ResolutionError` variants do not exist in the returned value. -/
theorem resolution_error_collapse :
    (resolve ⟨"u", .statusErr 401, .ok ⟨0, []⟩⟩).1 =
      (resolve ⟨"u", .requestErr, .ok ⟨0, []⟩⟩).1 ∧
    (resolve ⟨"u", .requestErr, .ok ⟨0, []⟩⟩).1 =
      (resolve ⟨"u", .ok Page.empty, .ok ⟨0, []⟩⟩).1 ∧
    (resolve ⟨"u", .statusErr 401, .ok ⟨0, []⟩⟩).1 = (none, none, none) := by
  decide

/-- C8, amended.  All three failure causes collapse to the same returned
triple `(None, None, None)`; they are distinguished only in the log stream,
where a 401/403 status additionally emits the stale-credential line
(terabox.py 181-182) that a non-auth status does not. -/
theorem resolution_errors_logged_only (u : String) (api : ApiOutcome)
    (code : Nat) :
    (resolve ⟨u, .statusErr code, api⟩).1 = (none, none, none) ∧
    (resolve ⟨u, .requestErr, api⟩).1 = (none, none, none) ∧
    (resolve ⟨u, .ok Page.empty, api⟩).1 = (none, none, none) ∧
    (resolve ⟨u, .statusErr 401, api⟩).2 ≠ (resolve ⟨u, .requestErr, api⟩).2 ∧
    (resolve ⟨u, .requestErr, api⟩).2 ≠ (resolve ⟨u, .ok Page.empty, api⟩).2 ∧
    LogEvent.authExpired ∈ (resolve ⟨u, .statusErr 403, api⟩).2 ∧
    LogEvent.authExpired ∉ (resolve ⟨u, .statusErr 500, api⟩).2 := by
  have h1 : (resolve ⟨u, .statusErr 401, api⟩).2 =
      [.httpStatusErr 401, .authExpired] := rfl
  have h2 : (resolve ⟨u, .requestErr, api⟩).2 = [.netErr] := rfl
  have h3 : (resolve ⟨u, .ok Page.empty, api⟩).2 = [.notFound] := rfl
  have h4 : (resolve ⟨u, .statusErr 403, api⟩).2 =
      [.httpStatusErr 403, .authExpired] := rfl
  have h5 : (resolve ⟨u, .statusErr 500, api⟩).2 = [.httpStatusErr 500] := rfl
  refine ⟨rfl, rfl, rfl, ?_, ?_, ?_, ?_⟩
  · rw [h1, h2]; decide
  · rw [h2, h3]; decide
  · rw [h4]; decide
  · rw [h5]; decide

/-! ## Claim C9: the named denial paths raise instead of completing -/

/-- C9.  The token-expired denial path evaluates
`humanize.naturaltime(...)` (decorators.py 123) and the membership-lookup
`FloodWait` path evaluates `asyncio.sleep(...)` (decorators.py 81), but
neither `humanize` nor `asyncio` is bound in the module's namespace, so
both denial paths raise `NameError` instead of completing with a
user-facing explanation; the third conjunct confirms the failing run is
exactly the token-expired denial branch. -/
theorem denial_paths_raise_nameerror :
    token_required_run false (some ⟨"t", 100⟩) 101 = .error .nameError ∧
    fsub_floodwait_run 5 = .error .nameError ∧
    token_required_decide false (some ⟨"t", 100⟩) 101 =
      .deniedTokenExpired 1 := by decide

/-! ## Claim C2: size-ceiling enforcement -/

/-- If the running total starts within the limit but the chunk total would
exceed it, the streaming loop reports the limit as exceeded. -/
theorem streamChunks_exceeds (limit : Nat) (chunks : List Nat) :
    ∀ acc : Nat, acc ≤ limit → limit < acc + chunks.sum →
      (streamChunks limit chunks acc).2 = true := by
  induction chunks with
  | nil =>
    intro acc h1 h2
    simp only [List.sum_nil] at h2
    omega
  | cons c rest ih =>
    intro acc h1 h2
    simp only [List.sum_cons] at h2
    simp only [streamChunks]
    by_cases h : acc + c > limit
    · simp [h]
    · simp only [h, if_neg h]
      exact ih (acc + c) (by omega) (by omega)

/-- C2.  With a declared content length above the limit, the run ends with
the too-large status and no temporary file is ever created; with no
declared length and a chunk total exceeding the limit, the run ends with
the too-large status and the partial file, though created, is gone when the
run returns (the download `finally`, message.py 152-159).  The transport
hypotheses say only that the status edits themselves do not fail. -/
theorem size_ceiling_enforced (limit n : Nat) (chunks1 chunks2 : List Nat)
    (env1 env2 : TransferEnv)
    (h1 : env1.editStart = .ok) (h2 : env1.resp = .body (some n) chunks1)
    (h3 : env1.editTooLarge = .ok) (hn : limit < n)
    (g1 : env2.editStart = .ok) (g2 : env2.resp = .body none chunks2)
    (g3 : env2.editDlFail = .ok) (hsum : limit < chunks2.sum) :
    download_and_upload env1 limit =
      ⟨.ok (.tooLargeDeclared n), false, ⟨false, false⟩⟩ ∧
    download_and_upload env2 limit =
      ⟨.ok .tooLargeStreamed, false, ⟨true, false⟩⟩ := by
  constructor
  · unfold download_and_upload downloadPhase
    rw [h1, h2]
    simp [hn, h3]
  · unfold download_and_upload downloadPhase streamPart
    rw [g1, g2]
    have hs := streamChunks_exceeds limit chunks2 0 (Nat.zero_le _) (by omega)
    simp [hs, g3]

/-- C2 witness: limit 2000, declared length 3000 (no file created), and an
undeclared stream of chunks 600+600+900 (partial file deleted). -/
theorem size_ceiling_enforced_witness :
    download_and_upload (TransferEnv.allOk (.body (some 3000) [])) 2000 =
      ⟨.ok (.tooLargeDeclared 3000), false, ⟨false, false⟩⟩ ∧
    download_and_upload (TransferEnv.allOk (.body none [600, 600, 900])) 2000 =
      ⟨.ok .tooLargeStreamed, false, ⟨true, false⟩⟩ :=
  size_ceiling_enforced 2000 3000 [] [600, 600, 900]
    (TransferEnv.allOk (.body (some 3000) []))
    (TransferEnv.allOk (.body none [600, 600, 900]))
    rfl rfl rfl (by decide) rfl rfl rfl (by decide)

/-! ## Claim C5: cleanup on every exit path -/

/-- C5, counterexample.  After a fully successful download, the pre-upload
status edit (message.py 167) sits outside every `try`; when it raises, the
exception propagates out of `download_and_upload` and the end-of-function
cleanup (226-231) never runs — the temporary file is still on disk. -/
theorem cleanup_skipped_counterexample :
    (download_and_upload c5Env MAX_TG_UPLOAD_SIZE_BYTES).fs.onDisk = true ∧
    (download_and_upload c5Env MAX_TG_UPLOAD_SIZE_BYTES).outcome =
      .error (.floodWait 5) := by decide

/-- Under non-raising status edits, the download section never propagates
an exception; an early return leaves no file, and a completed download
proceeds with the file on disk. -/
theorem downloadPhase_shape (env : TransferEnv) (limit : Nat)
    (h1 : env.editStart = .ok) (h2 : env.editTooLarge = .ok)
    (h3 : env.editDlDone = .ok) (h4 : env.editDlFail = .ok) :
    (match downloadPhase env limit with
     | .raised _ _ => False
     | .earlyReturn _ fs => fs.onDisk = false
     | .proceed _ fs => fs = ⟨true, true⟩) := by
  unfold downloadPhase streamPart
  rw [h1]
  cases hr : env.resp with
  | statusErr c => rw [h4]
  | requestErr => rw [h4]
  | body cl chunks =>
    cases cl with
    | some n =>
      by_cases hn : n > limit
      · simp [hn, h2]
      · cases hx : (streamChunks limit chunks 0).2 <;> simp [hn, hx, h4]
    | none =>
      cases hx : (streamChunks limit chunks 0).2 <;> simp [hx, h3, h4]

/-- Under non-raising status edits and deletions, the upload phase never
propagates an exception, whatever the two `send_video` attempts do. -/
theorem uploadPhase_no_raise (env : TransferEnv)
    (h5 : env.editUploading = .ok) (h6 : env.statusDelete = .ok)
    (h7 : env.editFloodNotice = .ok) (h8 : env.statusDeleteRetry = .ok)
    (h9 : env.editUploadFail = .ok) :
    ∃ b, uploadPhase env = .ok b := by
  unfold uploadPhase
  rw [h5]
  cases hs : env.sendVideo with
  | ok =>
    rw [h6]
    exact ⟨true, rfl⟩
  | exc e =>
    unfold uploadExcHandler
    cases e <;> simp only [h7, h9]
    case floodWait w =>
      cases hr : env.sendVideoRetry with
      | ok => rw [h8]; exact ⟨true, rfl⟩
      | exc e' => exact ⟨false, rfl⟩
    all_goals exact ⟨false, rfl⟩

/-- C5, amended.  The temporary file is removed on every exit path on which
the status-reporting transport calls (the status edits and deletions) do
not themselves raise — including arbitrary failures of both `send_video`
attempts and of the archive forward; but when a status edit raises after a
successful download (see `cleanup_skipped_counterexample`), the exception
propagates and the file is left on disk. -/
theorem cleanup_amended (env : TransferEnv) (limit : Nat)
    (h1 : env.editStart = .ok) (h2 : env.editTooLarge = .ok)
    (h3 : env.editDlDone = .ok) (h4 : env.editDlFail = .ok)
    (h5 : env.editUploading = .ok) (h6 : env.statusDelete = .ok)
    (h7 : env.editFloodNotice = .ok) (h8 : env.statusDeleteRetry = .ok)
    (h9 : env.editUploadFail = .ok) :
    (download_and_upload env limit).fs.onDisk = false := by
  have hd := downloadPhase_shape env limit h1 h2 h3 h4
  unfold download_and_upload
  cases hdl : downloadPhase env limit with
  | raised e fs => rw [hdl] at hd; exact absurd hd (by simp)
  | earlyReturn o fs => rw [hdl] at hd; exact hd
  | proceed b fs =>
    rw [hdl] at hd
    obtain ⟨u, hu⟩ := uploadPhase_no_raise env h5 h6 h7 h8 h9
    rw [hu]

/-- C5 amended witness: on a benign environment with a successful 100-byte
download the file is gone afterwards. -/
theorem cleanup_amended_witness :
    (download_and_upload (TransferEnv.allOk (.body (some 100) [100]))
        MAX_TG_UPLOAD_SIZE_BYTES).fs.onDisk = false :=
  cleanup_amended (TransferEnv.allOk (.body (some 100) [100]))
    MAX_TG_UPLOAD_SIZE_BYTES rfl rfl rfl rfl rfl rfl rfl rfl rfl

/-! ## Claim C10: invalid input after admission still consumes the cooldown -/

/-- C10.  A non-privileged caller who passes the membership, token and
throttle gates with a text containing no recognized share link gets the
invalid-input reply and no resolution or transfer is started — yet the
throttle mark was already set to the admission time (`spam_check` updates
it before calling the handler, decorators.py 161-163, and the handler
deliberately leaves it in place, message.py 43-46), so a retry within the
cooldown window is denied with the rate-limit message. -/
theorem invalid_input_keeps_throttle_mark (delay t1 t2 : Int)
    (td : ParsedToken) (text : String)
    (hx : extract_terabox_link text = none)
    (hv1 : t1 ≤ td.expires) (hv2 : t2 ≤ td.expires)
    (_hge : 0 ≤ t2 - t1) (hlt : t2 - t1 < delay) :
    process_message ⟨false, true, some td⟩ delay none t1 text =
      (.invalidInput, some t1) ∧
    (process_message ⟨false, true, some td⟩ delay (some t1) t2 text).1 =
      .spamDenied (delay - (t2 - t1)) := by
  constructor
  · simp [process_message, token_required_decide, not_lt.mpr hv1,
      spam_check_decide, handlerBody, hx]
  · simp [process_message, token_required_decide, not_lt.mpr hv2,
      spam_check_decide, hlt]

/-- C10 witness: the text `"hello"` holds no share link; the first message
at time 0 gets the invalid-input reply and sets the mark, the retry at time
10 (delay 60) is denied with 50 seconds of wait. -/
theorem invalid_input_keeps_throttle_mark_witness :
    process_message ⟨false, true, some ⟨"tok", 1000⟩⟩ 60 none 0 "hello" =
      (.invalidInput, some 0) ∧
    (process_message ⟨false, true, some ⟨"tok", 1000⟩⟩ 60 (some 0) 10
        "hello").1 = .spamDenied 50 := by
  have h := invalid_input_keeps_throttle_mark 60 0 10 ⟨"tok", 1000⟩ "hello"
    (by decide) (by decide) (by decide) (by decide) (by decide)
  exact ⟨h.1, h.2.trans (by decide)⟩

/-! ## Claim C1: the throttle gate under interleaving -/

/-- With no prior mark, or a prior mark at least one cooldown in the past,
the atomic decision admits and writes the mark to `now`. -/
theorem spam_decide_fresh (delay : Int) (m0 : Option Int) (n : Int)
    (h : ∀ t0, m0 = some t0 → delay ≤ n - t0) :
    spam_check_decide delay m0 n = (.admitted, some n) := by
  cases m0 with
  | none => rfl
  | some t0 => simp [spam_check_decide, not_lt.mpr (h t0 rfl)]

/-- With a mark inside the cooldown window, the atomic decision denies and
leaves the mark unchanged. -/
theorem spam_decide_recent (delay t n : Int) (h : n - t < delay) :
    spam_check_decide delay (some t) n =
      (.deniedRateLimited (delay - (n - t)), some t) := by
  simp [spam_check_decide, h]

/-- A step never un-decides task A. -/
theorem spamStep_keeps_ta (delay : Int) (s : SpamSys) (w : Bool) (n : Int)
    (h : s.ta.decided = true) : (spamStep delay s w n).ta.decided = true := by
  unfold spamStep
  cases w with
  | false => by_cases hb : s.tb.decided <;> simp [hb, h]
  | true => simp [h]

/-- A step never un-decides task B. -/
theorem spamStep_keeps_tb (delay : Int) (s : SpamSys) (w : Bool) (n : Int)
    (h : s.tb.decided = true) : (spamStep delay s w n).tb.decided = true := by
  unfold spamStep
  cases w with
  | false => simp [h]
  | true => by_cases ha : s.ta.decided <;> simp [ha, h]

/-- Scheduling task A decides it. -/
theorem spamStep_sets_ta (delay : Int) (s : SpamSys) (n : Int) :
    (spamStep delay s true n).ta.decided = true := by
  unfold spamStep
  by_cases h : s.ta.decided <;> simp [h]

/-- Scheduling task B decides it. -/
theorem spamStep_sets_tb (delay : Int) (s : SpamSys) (n : Int) :
    (spamStep delay s false n).tb.decided = true := by
  unfold spamStep
  by_cases h : s.tb.decided <;> simp [h]

/-- Running a schedule preserves task A's decidedness. -/
theorem spamRun_keeps_ta (delay : Int) :
    ∀ (sched : List (Bool × Int)) (s : SpamSys), s.ta.decided = true →
      (spamRun delay sched s).ta.decided = true := by
  intro sched
  induction sched with
  | nil => intro s h; exact h
  | cons p rest ih =>
    intro s h
    obtain ⟨w, t⟩ := p
    exact ih _ (spamStep_keeps_ta delay s w t h)

/-- Running a schedule preserves task B's decidedness. -/
theorem spamRun_keeps_tb (delay : Int) :
    ∀ (sched : List (Bool × Int)) (s : SpamSys), s.tb.decided = true →
      (spamRun delay sched s).tb.decided = true := by
  intro sched
  induction sched with
  | nil => intro s h; exact h
  | cons p rest ih =>
    intro s h
    obtain ⟨w, t⟩ := p
    exact ih _ (spamStep_keeps_tb delay s w t h)

/-- After running a schedule that mentions task A, task A has decided. -/
theorem spamRun_ta_decided (delay : Int) :
    ∀ (sched : List (Bool × Int)) (s : SpamSys), (∃ t, (true, t) ∈ sched) →
      (spamRun delay sched s).ta.decided = true := by
  intro sched
  induction sched with
  | nil => rintro s ⟨t, ht⟩; cases ht
  | cons p rest ih =>
    rintro s ⟨t, ht⟩
    obtain ⟨w, u⟩ := p
    rcases List.mem_cons.mp ht with heq | hmem
    · injection heq with hw hu
      subst hw; subst hu
      exact spamRun_keeps_ta delay rest _ (spamStep_sets_ta delay s t)
    · exact ih _ ⟨t, hmem⟩

/-- After running a schedule that mentions task B, task B has decided. -/
theorem spamRun_tb_decided (delay : Int) :
    ∀ (sched : List (Bool × Int)) (s : SpamSys), (∃ t, (false, t) ∈ sched) →
      (spamRun delay sched s).tb.decided = true := by
  intro sched
  induction sched with
  | nil => rintro s ⟨t, ht⟩; cases ht
  | cons p rest ih =>
    rintro s ⟨t, ht⟩
    obtain ⟨w, u⟩ := p
    rcases List.mem_cons.mp ht with heq | hmem
    · injection heq with hw hu
      subst hw; subst hu
      exact spamRun_keeps_tb delay rest _ (spamStep_sets_tb delay s t)
    · exact ih _ ⟨t, hmem⟩

/-- Scheduling undecided task A runs its decision region. -/
theorem spamStep_true_run (delay : Int) (s : SpamSys) (n : Int)
    (h : s.ta.decided = false) :
    spamStep delay s true n =
      { s with mark := (spam_check_decide delay s.mark n).2,
               ta := ⟨true, some (spam_check_decide delay s.mark n).1⟩ } := by
  simp [spamStep, h]

/-- Scheduling decided task A leaves the system unchanged. -/
theorem spamStep_true_noop (delay : Int) (s : SpamSys) (n : Int)
    (h : s.ta.decided = true) : spamStep delay s true n = s := by
  simp [spamStep, h]

/-- Scheduling undecided task B runs its decision region. -/
theorem spamStep_false_run (delay : Int) (s : SpamSys) (n : Int)
    (h : s.tb.decided = false) :
    spamStep delay s false n =
      { s with mark := (spam_check_decide delay s.mark n).2,
               tb := ⟨true, some (spam_check_decide delay s.mark n).1⟩ } := by
  simp [spamStep, h]

/-- Scheduling decided task B leaves the system unchanged. -/
theorem spamStep_false_noop (delay : Int) (s : SpamSys) (n : Int)
    (h : s.tb.decided = true) : spamStep delay s false n = s := by
  simp [spamStep, h]

/-- One scheduler step preserves the reachability invariant, provided the
step's time lies in `T`, all decision times in `T` are pairwise within one
cooldown, and any pre-existing mark is at least one cooldown older than
every time in `T`. -/
theorem spamStep_inv (delay : Int) (T : List Int) (m0 : Option Int)
    (HT : ∀ t ∈ T, ∀ u ∈ T, u - t < delay)
    (Hm0 : ∀ t0, m0 = some t0 → ∀ t ∈ T, delay ≤ t - t0)
    (s : SpamSys) (w : Bool) (n : Int) (hn : n ∈ T)
    (hinv : SpamInv T m0 s) : SpamInv T m0 (spamStep delay s w n) := by
  have hfresh : spam_check_decide delay m0 n = (.admitted, some n) :=
    spam_decide_fresh delay m0 n (fun t0 h0 => Hm0 t0 h0 n hn)
  rcases hinv with ⟨ha, hao, hb, hbo, hm⟩ | ⟨ha, hao, hb, hbo, t, htT, hm⟩ |
    ⟨hb, hbo, ha, hao, t, htT, hm⟩ | ⟨ha, hb, hone, t, htT, hm⟩
  · cases w with
    | true =>
      rw [spamStep_true_run delay s n ha, hm, hfresh]
      exact Or.inr (Or.inl ⟨rfl, rfl, hb, hbo, n, hn, rfl⟩)
    | false =>
      rw [spamStep_false_run delay s n hb, hm, hfresh]
      exact Or.inr (Or.inr (Or.inl ⟨rfl, rfl, ha, hao, n, hn, rfl⟩))
  · cases w with
    | true =>
      rw [spamStep_true_noop delay s n ha]
      exact Or.inr (Or.inl ⟨ha, hao, hb, hbo, t, htT, hm⟩)
    | false =>
      rw [spamStep_false_run delay s n hb, hm,
        spam_decide_recent delay t n (HT t htT n hn)]
      refine Or.inr (Or.inr (Or.inr ⟨ha, rfl, ?_, t, htT, rfl⟩))
      exact Or.inl ⟨hao, delay - (n - t), rfl⟩
  · cases w with
    | true =>
      rw [spamStep_true_run delay s n ha, hm,
        spam_decide_recent delay t n (HT t htT n hn)]
      refine Or.inr (Or.inr (Or.inr ⟨rfl, hb, ?_, t, htT, rfl⟩))
      exact Or.inr ⟨hbo, delay - (n - t), rfl⟩
    | false =>
      rw [spamStep_false_noop delay s n hb]
      exact Or.inr (Or.inr (Or.inl ⟨hb, hbo, ha, hao, t, htT, hm⟩))
  · cases w with
    | true =>
      rw [spamStep_true_noop delay s n ha]
      exact Or.inr (Or.inr (Or.inr ⟨ha, hb, hone, t, htT, hm⟩))
    | false =>
      rw [spamStep_false_noop delay s n hb]
      exact Or.inr (Or.inr (Or.inr ⟨ha, hb, hone, t, htT, hm⟩))

/-- Running a whole schedule preserves the reachability invariant. -/
theorem spamRun_inv (delay : Int) (T : List Int) (m0 : Option Int)
    (HT : ∀ t ∈ T, ∀ u ∈ T, u - t < delay)
    (Hm0 : ∀ t0, m0 = some t0 → ∀ t ∈ T, delay ≤ t - t0) :
    ∀ (sched : List (Bool × Int)) (s : SpamSys),
      (∀ p ∈ sched, p.2 ∈ T) → SpamInv T m0 s →
      SpamInv T m0 (spamRun delay sched s) := by
  intro sched
  induction sched with
  | nil => intro s _ h; exact h
  | cons p rest ih =>
    intro s hmem h
    obtain ⟨w, t⟩ := p
    exact ih _ (fun q hq => hmem q (List.mem_cons_of_mem _ hq))
      (spamStep_inv delay T m0 HT Hm0 s w t
        (hmem (w, t) (List.mem_cons_self _ _)) h)

/-- C1.  Two `spam_check` runs for the same caller, issued within one
cooldown window (all decision times pairwise closer than `delay`; any prior
mark at least one cooldown in the past; no other admission touches the
mark), produce exactly one `Admitted` and one rate-limited denial under
*every* schedule that runs both tasks; moreover whenever the atomic
decision admits, the returned state already carries the mark set to the
admission time — the mark update is part of the decision, before `Admitted`
is returned (decorators.py 161-163, database.py 92-93). -/
theorem throttle_gate_mutual_exclusion (delay : Int) (m0 : Option Int)
    (sched : List (Bool × Int))
    (HT : ∀ p ∈ sched, ∀ q ∈ sched, q.2 - p.2 < delay)
    (Hm0 : ∀ t0, m0 = some t0 → ∀ p ∈ sched, delay ≤ p.2 - t0)
    (Ha : ∃ t, (true, t) ∈ sched) (Hb : ∃ t, (false, t) ∈ sched) :
    exactlyOneAdmitted (spamRun delay sched (SpamSys.initWith m0)) ∧
    ∀ mark now,
      (spam_check_decide delay mark now).1 = .admitted →
      (spam_check_decide delay mark now).2 = some now := by
  constructor
  · have HT' : ∀ t ∈ sched.map Prod.snd, ∀ u ∈ sched.map Prod.snd,
        u - t < delay := by
      intro t ht u hu
      obtain ⟨p, hp, rfl⟩ := List.mem_map.mp ht
      obtain ⟨q, hq, rfl⟩ := List.mem_map.mp hu
      exact HT p hp q hq
    have Hm0' : ∀ t0, m0 = some t0 → ∀ t ∈ sched.map Prod.snd,
        delay ≤ t - t0 := by
      intro t0 h0 t ht
      obtain ⟨p, hp, rfl⟩ := List.mem_map.mp ht
      exact Hm0 t0 h0 p hp
    have hinv := spamRun_inv delay (sched.map Prod.snd) m0 HT' Hm0' sched
      (SpamSys.initWith m0)
      (fun p hp => List.mem_map_of_mem _ hp)
      (Or.inl ⟨rfl, rfl, rfl, rfl, rfl⟩)
    have hta := spamRun_ta_decided delay sched (SpamSys.initWith m0) Ha
    have htb := spamRun_tb_decided delay sched (SpamSys.initWith m0) Hb
    rcases hinv with ⟨h1, _, _, _, _⟩ | ⟨_, _, h3, _, _⟩ |
      ⟨_, _, h3, _, _⟩ | ⟨_, _, hone, _⟩
    · rw [hta] at h1; cases h1
    · rw [htb] at h3; cases h3
    · rw [hta] at h3; cases h3
    · exact hone
  · intro mark now h
    cases mark with
    | none => rfl
    | some last =>
      by_cases hc : now - last < delay
      · rw [spam_decide_recent delay last now hc] at h; cases h
      · simp [spam_check_decide, hc]

/-- C1 witness: delay 60, task A decides at time 5, task B at time 30, no
prior mark. -/
theorem throttle_gate_mutual_exclusion_witness :
    exactlyOneAdmitted
      (spamRun 60 [(true, 5), (false, 30)] (SpamSys.initWith none)) ∧
    ∀ mark now,
      (spam_check_decide 60 mark now).1 = .admitted →
      (spam_check_decide 60 mark now).2 = some now :=
  throttle_gate_mutual_exclusion 60 none [(true, 5), (false, 30)]
    (by decide) (fun t0 h => nomatch h) ⟨5, by decide⟩ ⟨30, by decide⟩

end Terabot
